import Mathlib

/-!
Verification development for the street-lamp control service (`src/app.py`).

The Python module is shallowly embedded here:
* floating-point readings are modelled by `ℚ` (all constants and comparisons
  in the source are exact decimal values, so rationals are faithful);
* the feature dictionary `ml_features` becomes the structure `WeatherFeatures`,
  whose `is_night_time` field is an `Option Bool` so that a dictionary lacking
  the `is_night_time` key (read with `dict.get('is_night_time', False)`) is
  representable;
* the `RandomForestClassifier` is an opaque external capability: it is passed
  in as a function `List ℚ → ℤ`, exactly as `determine_lamp_action` receives
  the loaded model as a parameter;
* ambient effects (`datetime.now()`, `datetime.fromtimestamp`, the HTTP
  transport, the random sensor draw) become explicit parameters of the
  embedded functions.
-/

/-- Time of day of a `datetime` value, to second precision (sub-second
precision is elided; no compared quantity in the source is finer than a
second on the parsed side, which is always produced with `second = 0`). -/
structure Time where
  hour : Nat
  minute : Nat
  second : Nat
deriving DecidableEq

/-- Seconds since midnight of a `Time`. -/
def Time.secondsOfDay (t : Time) : Nat :=
  t.hour * 3600 + t.minute * 60 + t.second

/-- A calendar date, as produced by `datetime.fromtimestamp`. -/
structure Date where
  year : Nat
  month : Nat
  day : Nat
deriving DecidableEq

/-- `FEATURES` from `app.py` line 14: the exact ordered column list handed to
the classifier. -/
def FEATURES : List String :=
  ["humidity", "cloudcover", "visibility", "uvindex", "day_of_year", "temp", "precip"]

/-- `MAX_SAFE_TEMP_C` from `app.py` line 17. -/
def MAX_SAFE_TEMP_C : ℚ := 55

/-- Decimal digit test, as in the regex class `\d` used by `strptime`. -/
def isDigitChar (c : Char) : Bool := '0' ≤ c ∧ c ≤ '9'

/-- Numeric value of a decimal digit character. -/
def digitVal (c : Char) : Nat := c.toNat - '0'.toNat

/-- Whitespace test, as in the regex class `\s` used by `strptime`. -/
def isSpaceChar (c : Char) : Bool :=
  c = ' ' ∨ c = '\t' ∨ c = '\n' ∨ c = '\r' ∨ c = '\x0b' ∨ c = '\x0c'

/-- The `%I` directive of `strptime` followed by the literal `:` of the
format `'%I:%M %p'`: a 12-hour field matching `1[0-2]|0[1-9]|[1-9]`, then a
colon.  Returns the hour (1-12) and the unconsumed characters.  The regex
alternation is deterministic here because the character after the hour must
be `:`, so a successful two-digit match can never be rescued by
backtracking to the one-digit branch. -/
def splitHour : List Char → Option (Nat × List Char)
  | c1 :: ':' :: rest =>
      if isDigitChar c1 ∧ 1 ≤ digitVal c1 then some (digitVal c1, rest)
      else none
  | c1 :: c2 :: ':' :: rest =>
      if c1 = '1' ∧ '0' ≤ c2 ∧ c2 ≤ '2' then some (10 + digitVal c2, rest)
      else if c1 = '0' ∧ '1' ≤ c2 ∧ c2 ≤ '9' then some (digitVal c2, rest)
      else none
  | _ => none

/-- The `%M` directive of `strptime`: `[0-5]\d|\d`.  Returns the minute and
the unconsumed characters.  As with the hour, the following mandatory
whitespace makes the alternation deterministic: when two digits are
present, the one-digit branch would leave a digit where whitespace is
required, so no backtracking case is lost. -/
def splitMinute : List Char → Option (Nat × List Char)
  | [] => none
  | [c1] => if isDigitChar c1 then some (digitVal c1, []) else none
  | c1 :: c2 :: rest =>
      if isDigitChar c1 ∧ isDigitChar c2 then
        if c1 ≤ '5' then some (10 * digitVal c1 + digitVal c2, rest)
        else none
      else if isDigitChar c1 then some (digitVal c1, c2 :: rest)
      else none

/-- The single space of the format `'%I:%M %p'`, which `strptime` compiles
to `\s+`: at least one whitespace character, consumed greedily. -/
def splitSpaces1 : List Char → Option (List Char)
  | c :: rest =>
      if isSpaceChar c then some (rest.dropWhile isSpaceChar) else none
  | [] => none

/-- The `%p` directive of `strptime` at the end of the input: `AM` or `PM`,
case-insensitively (the pattern is compiled with `re.IGNORECASE`), with no
unconverted data allowed after it.  Returns `true` for PM. -/
def parseAmPm : List Char → Option Bool
  | [a, m] =>
      if (a = 'A' ∨ a = 'a') ∧ (m = 'M' ∨ m = 'm') then some false
      else if (a = 'P' ∨ a = 'p') ∧ (m = 'M' ∨ m = 'm') then some true
      else none
  | _ => none

/-- `datetime.strptime(f"{date} {time_str}", '%Y-%m-%d %I:%M %p')`,
restricted to its time-of-day part: the date prefix is produced by
`strftime` and always matches, and the literal space of the format (a
`\s+` in the compiled pattern) absorbs the interpolated space together
with any leading whitespace of `time_str`.  On success, returns the parsed
time of day in minutes since midnight, applying the `%p` rule: hour 12
maps to 0 with AM and stays 12 with PM, other hours gain 12 with PM. -/
def parseTime12 (time_str : String) : Option Nat :=
  match splitHour (time_str.data.dropWhile isSpaceChar) with
  | none => none
  | some (h, rest1) =>
    match splitMinute rest1 with
    | none => none
    | some (m, rest2) =>
      match splitSpaces1 rest2 with
      | none => none
      | some rest3 =>
        match parseAmPm rest3 with
        | none => none
        | some pm =>
          let h24 := if pm then (if h = 12 then 12 else h + 12)
                     else (if h = 12 then 0 else h)
          some (h24 * 60 + m)

/-- `is_currently_night` (`app.py` lines 60-76), with `datetime.now()` made
an explicit parameter `today`.  Both parsed datetimes carry today's date,
so the datetime comparisons reduce to time-of-day comparisons in seconds
(`strptime` leaves seconds at 0, hence the parsed instants sit at exact
minutes).  A parse failure of either string takes the `except ValueError`
branch: `today.hour < 7 or today.hour >= 19`. -/
def is_currently_night (today : Time) (sunrise_time_str sunset_time_str : String) : Bool :=
  match parseTime12 sunrise_time_str, parseTime12 sunset_time_str with
  | some sunrise_min, some sunset_min =>
      decide (today.secondsOfDay < sunrise_min * 60) ||
        decide (sunset_min * 60 ≤ today.secondsOfDay)
  | _, _ => decide (today.hour < 7) || decide (19 ≤ today.hour)

/-- The `ml_features` dictionary built by `fetch_real_time_weather`
(`app.py` lines 98-110), as consumed by `determine_lamp_action`.
`is_night_time` is optional because `determine_lamp_action` reads it with
`weather_features.get('is_night_time', False)`, which tolerates an absent
key. -/
structure WeatherFeatures where
  temp : ℚ
  humidity : ℚ
  precip : ℚ
  cloudcover : ℚ
  visibility : ℚ
  uvindex : ℚ
  day_of_year : ℚ
  is_night_time : Option Bool
deriving DecidableEq

/-- The dictionary returned by `read_health_sensor` (`app.py` lines 35-39). -/
structure HealthStatus where
  current_temp_c : ℚ
  max_safe_temp_c : ℚ
  is_overheated : Bool
deriving DecidableEq

/-- Numeric-column lookup on the feature dictionary, mirroring
`pd.DataFrame([weather_features])[name]` for a single name: only the seven
numeric keys resolve; the boolean `is_night_time` entry is not a numeric
feature column and is never selected by `FEATURES`. -/
def featureLookup (wf : WeatherFeatures) (name : String) : Option ℚ :=
  if name = "humidity" then some wf.humidity
  else if name = "cloudcover" then some wf.cloudcover
  else if name = "visibility" then some wf.visibility
  else if name = "uvindex" then some wf.uvindex
  else if name = "day_of_year" then some wf.day_of_year
  else if name = "temp" then some wf.temp
  else if name = "precip" then some wf.precip
  else none

/-- `X_weather = pd.DataFrame([weather_features])[FEATURES]` (`app.py`
line 155): the single row of numeric features, selected in `FEATURES`
order. -/
def X_weather (wf : WeatherFeatures) : List ℚ :=
  FEATURES.filterMap (featureLookup wf)

/-- `determine_lamp_action` (`app.py` lines 129-171).
`model_clf` abstracts `model_clf.predict(X_weather)[0]` as a function from
the feature row to an integer label. -/
def determine_lamp_action (weather_features : WeatherFeatures)
    (is_motion_detected : Bool) (model_clf : List ℚ → ℤ)
    (health_status : HealthStatus) : String :=
  if !(weather_features.is_night_time.getD false) then
    "OFF (Daytime)"
  else if health_status.is_overheated then
    "MAX OUTPUT (System Failsafe: Overheat)"
  else if model_clf (X_weather weather_features) = 1 then
    "MAX OUTPUT (Safety Override: Rain/Fog)"
  else if is_motion_detected then
    "DIMMER OUTPUT (Motion Detected)"
  else
    "OFF (No Motion Detected)"

/-- Rounding to the nearest integer with ties to even, the rule used by
Python's builtin `round`. -/
def roundHalfEven (q : ℚ) : ℤ :=
  if Int.fract q = 1 / 2 then (if ⌊q⌋ % 2 = 0 then ⌊q⌋ else ⌊q⌋ + 1)
  else round q

/-- `round(x, 1)`: one decimal place, ties to even. -/
def round1 (q : ℚ) : ℚ := (roundHalfEven (10 * q) : ℚ) / 10

/-- `read_health_sensor` (`app.py` lines 25-39) with the simulated random
draw made an explicit parameter: the deterministic evaluation applied to an
already-obtained temperature reading.  `is_overheated` is computed on the
raw reading; only the reported `current_temp_c` is rounded. -/
def read_health_sensor_eval (current_temp : ℚ) : HealthStatus :=
  { current_temp_c := round1 current_temp
    max_safe_temp_c := MAX_SAFE_TEMP_C
    is_overheated := decide (MAX_SAFE_TEMP_C < current_temp) }

/-- Gregorian leap-year rule, as used by Python's `datetime` for
`timetuple().tm_yday`. -/
def isLeapYear (y : Nat) : Bool :=
  y % 4 == 0 && (!(y % 100 == 0) || y % 400 == 0)

/-- Length of a month in the Gregorian calendar. -/
def daysInMonth (y m : Nat) : Nat :=
  if m = 2 then (if isLeapYear y then 29 else 28)
  else if m = 4 ∨ m = 6 ∨ m = 9 ∨ m = 11 then 30
  else 31

/-- `calculate_day_of_year` (`app.py` lines 56-58):
`dt.timetuple().tm_yday`, the 1-based ordinal of the date within its year —
days of all earlier months plus the day of the month. -/
def calculate_day_of_year (d : Date) : Nat :=
  (((List.range (d.month - 1)).map fun i => daysInMonth d.year (i + 1)).sum) + d.day

/-- A date that exists in the Gregorian calendar. -/
def Date.isValid (d : Date) : Prop :=
  1 ≤ d.month ∧ d.month ≤ 12 ∧ 1 ≤ d.day ∧ d.day ≤ daysInMonth d.year d.month

/-- The next date inside the same year (meaningful away from December 31). -/
def Date.nextInYear (d : Date) : Date :=
  if d.day < daysInMonth d.year d.month then ⟨d.year, d.month, d.day + 1⟩
  else ⟨d.year, d.month + 1, 1⟩

/-- The plain numeric values extracted from the provider's `current` object,
in the state they have once every key access has succeeded. -/
structure CurrentReading where
  temp_c : ℚ
  humidity : ℚ
  precip_mm : ℚ
  cloud : ℚ
  vis_km : ℚ
  uv : ℚ
deriving DecidableEq

/-- The `ml_features` dictionary literal of `fetch_real_time_weather`
(`app.py` lines 98-110): provider fields copied through under the model's
feature names, visibility capped at 10.0 (the maximum of the training
data), the day of the year of the observation date, and the night flag. -/
def ml_features_of (current : CurrentReading) (current_date : Date)
    (is_night : Bool) : WeatherFeatures :=
  { temp := current.temp_c
    humidity := current.humidity
    precip := current.precip_mm
    cloudcover := current.cloud
    visibility := min current.vis_km 10
    uvindex := current.uv
    day_of_year := (calculate_day_of_year current_date : ℚ)
    is_night_time := some is_night }

/-- The provider's `current` object, each expected key possibly absent. -/
structure RawCurrent where
  last_updated_epoch : Option ℤ
  temp_c : Option ℚ
  humidity : Option ℚ
  precip_mm : Option ℚ
  cloud : Option ℚ
  vis_km : Option ℚ
  uv : Option ℚ

/-- The provider's `astro` object. -/
structure RawAstro where
  sunrise : Option String
  sunset : Option String

/-- One entry of the provider's `forecastday` array. -/
structure RawForecastDay where
  astro : Option RawAstro

/-- The provider's `forecast` object. -/
structure RawForecast where
  forecastday : Option (List RawForecastDay)

/-- The provider's top-level response body. -/
structure RawResponse where
  current : Option RawCurrent
  forecast : Option RawForecast

/-- What the transport layer hands to the parsing code: either a
`requests.exceptions.RequestException` (connection failure, timeout, or a
bad HTTP status raised by `raise_for_status`) carrying its text, or a
decoded response body. -/
inductive FetchInput where
  | transportFail (e : String)
  | response (data : RawResponse)

/-- The value returned by `fetch_real_time_weather`: the `'success'`
dictionary, the `'error'` dictionary with its message, or an exception that
neither `except` clause catches (an `IndexError` from `forecastday[0]`),
which propagates to the route's generic handler. -/
inductive FetchResult where
  | success (data : WeatherFeatures) (sunrise sunset : String)
  | error (message : String)
  | uncaught (message : String)
deriving DecidableEq

/-- The message of the transport-failure branch (`app.py` line 123). -/
def transportErrorMessage (e : String) : String :=
  "Could not connect to WeatherAPI: " ++ e

/-- The message of the `except KeyError` branch (`app.py` line 126);
`str` of a `KeyError` is the `repr` of the key, hence the quotes. -/
def missingKeyMessage (k : String) : String :=
  "Failed to parse weather data structure: Missing key '" ++ k ++ "'"

/-- Shorthand for the result of the `except KeyError` branch. -/
def keyErrorResult (k : String) : FetchResult :=
  FetchResult.error (missingKeyMessage k)

/-- `fetch_real_time_weather` (`app.py` lines 81-126), with the ambient
clock and the epoch-to-local-date conversion (`datetime.fromtimestamp`,
which depends on the host's timezone) passed in explicitly.  Each `match`
on an `Option` field is one dictionary access of the `try` block, in the
source's evaluation order; the first absent key raises `KeyError` and lands
in the handler that builds the missing-key message.  Indexing `[0]` into an
empty `forecastday` raises `IndexError`, which no `except` clause of this
function catches. -/
def fetch_real_time_weather (today : Time) (fromtimestamp : ℤ → Date) :
    FetchInput → FetchResult
  | FetchInput.transportFail e => FetchResult.error (transportErrorMessage e)
  | FetchInput.response data =>
    match data.current with
    | none => keyErrorResult "current"
    | some current =>
      match data.forecast with
      | none => keyErrorResult "forecast"
      | some forecast =>
        match forecast.forecastday with
        | none => keyErrorResult "forecastday"
        | some [] => FetchResult.uncaught "list index out of range"
        | some (fd0 :: _) =>
          match fd0.astro with
          | none => keyErrorResult "astro"
          | some astro =>
            match current.last_updated_epoch with
            | none => keyErrorResult "last_updated_epoch"
            | some epoch =>
              match astro.sunrise with
              | none => keyErrorResult "sunrise"
              | some sunrise =>
                match astro.sunset with
                | none => keyErrorResult "sunset"
                | some sunset =>
                  match current.temp_c with
                  | none => keyErrorResult "temp_c"
                  | some temp_c =>
                    match current.humidity with
                    | none => keyErrorResult "humidity"
                    | some humidity =>
                      match current.precip_mm with
                      | none => keyErrorResult "precip_mm"
                      | some precip_mm =>
                        match current.cloud with
                        | none => keyErrorResult "cloud"
                        | some cloud =>
                          match current.vis_km with
                          | none => keyErrorResult "vis_km"
                          | some vis_km =>
                            match current.uv with
                            | none => keyErrorResult "uv"
                            | some uv =>
                              FetchResult.success
                                (ml_features_of
                                  ⟨temp_c, humidity, precip_mm, cloud, vis_km, uv⟩
                                  (fromtimestamp epoch)
                                  (is_currently_night today sunrise sunset))
                                sunrise sunset

/-- The HTTP response of the `/api/control_lamp` route: its status code and
either an error message or the success payload. -/
inductive ServerResponse where
  | httpError (code : Nat) (message : String)
  | httpSuccess (lamp_action : String) (system_health : HealthStatus)
      (weather : WeatherFeatures)
deriving DecidableEq

/-- The `control_lamp` route handler (`app.py` lines 176-227): reject when
the model is not loaded; surface a fetch error as HTTP 500 with the fetch
result's own message and produce no lamp action; let an uncaught exception
fall into the generic handler (HTTP 500, generic message); otherwise read
the health sensor and run the decision engine on the fetched features. -/
def control_lamp (modelLoaded : Bool) (model_clf : List ℚ → ℤ) (today : Time)
    (fromtimestamp : ℤ → Date) (input : FetchInput) (sensor_temp : ℚ)
    (is_motion_detected : Bool) : ServerResponse :=
  if !modelLoaded then ServerResponse.httpError 500 "AI Model not loaded."
  else
    match fetch_real_time_weather today fromtimestamp input with
    | FetchResult.error msg => ServerResponse.httpError 500 msg
    | FetchResult.uncaught msg =>
        ServerResponse.httpError 500 ("An internal server error occurred: " ++ msg)
    | FetchResult.success data _ _ =>
        ServerResponse.httpSuccess
          (determine_lamp_action data is_motion_detected model_clf
            (read_health_sensor_eval sensor_temp))
          (read_health_sensor_eval sensor_temp) data

/-- C1: whenever the feature dictionary carries `is_night_time = False`, the
engine answers `OFF (Daytime)` for every health status (overheated or not),
every classifier, and every motion signal: no lower-priority rule is
consulted. -/
theorem daytime_gate_decides (wf : WeatherFeatures) (motion : Bool)
    (clf : List ℚ → ℤ) (health : HealthStatus)
    (h : wf.is_night_time = some false) :
    determine_lamp_action wf motion clf health = "OFF (Daytime)" := by
  simp [determine_lamp_action, h]

theorem daytime_gate_decides_witness :
    determine_lamp_action
      ⟨20, 80, 0, 50, 10, 5, 153, some false⟩ true (fun _ => 1)
      ⟨60, 55, true⟩ = "OFF (Daytime)" :=
  daytime_gate_decides ⟨20, 80, 0, 50, 10, 5, 153, some false⟩ true
    (fun _ => 1) ⟨60, 55, true⟩ rfl

/-- C2: at night, an overheated health status forces
`MAX OUTPUT (System Failsafe: Overheat)` for every classifier and every
motion signal. -/
theorem failsafe_overrides (wf : WeatherFeatures) (motion : Bool)
    (clf : List ℚ → ℤ) (health : HealthStatus)
    (hn : wf.is_night_time = some true) (ho : health.is_overheated = true) :
    determine_lamp_action wf motion clf health =
      "MAX OUTPUT (System Failsafe: Overheat)" := by
  simp [determine_lamp_action, hn, ho]

theorem failsafe_overrides_witness :
    determine_lamp_action
      ⟨20, 80, 0, 50, 10, 5, 153, some true⟩ true (fun _ => 1)
      ⟨60, 55, true⟩ = "MAX OUTPUT (System Failsafe: Overheat)" :=
  failsafe_overrides ⟨20, 80, 0, 50, 10, 5, 153, some true⟩ true
    (fun _ => 1) ⟨60, 55, true⟩ rfl rfl

/-- C3: at night with a healthy unit, a classifier verdict of `1` on the row
of the seven numeric features — which is exactly
`[humidity, cloudcover, visibility, uvindex, day_of_year, temp, precip]`,
the is-night boolean excluded — forces
`MAX OUTPUT (Safety Override: Rain/Fog)` for every motion signal. -/
theorem safety_override_decides (wf : WeatherFeatures) (motion : Bool)
    (clf : List ℚ → ℤ) (health : HealthStatus)
    (hn : wf.is_night_time = some true) (ho : health.is_overheated = false)
    (hc : clf (X_weather wf) = 1) :
    X_weather wf = [wf.humidity, wf.cloudcover, wf.visibility, wf.uvindex,
        wf.day_of_year, wf.temp, wf.precip] ∧
      determine_lamp_action wf motion clf health =
        "MAX OUTPUT (Safety Override: Rain/Fog)" := by
  constructor
  · simp [X_weather, FEATURES, featureLookup]
  · simp [determine_lamp_action, hn, ho, hc]

theorem safety_override_decides_witness :
    X_weather ⟨20, 80, 0, 50, 10, 5, 153, some true⟩ =
        [80, 50, 10, 5, 153, 20, 0] ∧
      determine_lamp_action ⟨20, 80, 0, 50, 10, 5, 153, some true⟩ false
        (fun _ => 1) ⟨40, 55, false⟩ =
        "MAX OUTPUT (Safety Override: Rain/Fog)" :=
  safety_override_decides ⟨20, 80, 0, 50, 10, 5, 153, some true⟩ false
    (fun _ => 1) ⟨40, 55, false⟩ rfl rfl rfl

/-- C4: at night, healthy, with a classifier verdict of `0`, the engine
returns `DIMMER OUTPUT (Motion Detected)` exactly when motion is detected
and `OFF (No Motion Detected)` otherwise. -/
theorem motion_rule_decides (wf : WeatherFeatures) (motion : Bool)
    (clf : List ℚ → ℤ) (health : HealthStatus)
    (hn : wf.is_night_time = some true) (ho : health.is_overheated = false)
    (hc : clf (X_weather wf) = 0) :
    (determine_lamp_action wf motion clf health =
        "DIMMER OUTPUT (Motion Detected)" ↔ motion = true) ∧
      (motion = false →
        determine_lamp_action wf motion clf health =
          "OFF (No Motion Detected)") := by
  cases motion <;> simp [determine_lamp_action, hn, ho, hc]

theorem motion_rule_decides_witness :
    (determine_lamp_action ⟨20, 80, 0, 50, 10, 5, 153, some true⟩ true
        (fun _ => 0) ⟨40, 55, false⟩ =
        "DIMMER OUTPUT (Motion Detected)" ↔ true = true) ∧
      (true = false →
        determine_lamp_action ⟨20, 80, 0, 50, 10, 5, 153, some true⟩ true
          (fun _ => 0) ⟨40, 55, false⟩ = "OFF (No Motion Detected)") :=
  motion_rule_decides ⟨20, 80, 0, 50, 10, 5, 153, some true⟩ true
    (fun _ => 0) ⟨40, 55, false⟩ rfl rfl rfl

/-- C10: when the feature dictionary has no `is_night_time` key at all,
`dict.get('is_night_time', False)` yields the default `False`, so the engine
answers `OFF (Daytime)` and never reaches the failsafe, classifier or motion
rules. -/
theorem missing_night_key_means_daytime (wf : WeatherFeatures) (motion : Bool)
    (clf : List ℚ → ℤ) (health : HealthStatus)
    (h : wf.is_night_time = none) :
    determine_lamp_action wf motion clf health = "OFF (Daytime)" := by
  simp [determine_lamp_action, h]

theorem missing_night_key_means_daytime_witness :
    determine_lamp_action ⟨20, 80, 0, 50, 10, 5, 153, none⟩ true
      (fun _ => 1) ⟨60, 55, true⟩ = "OFF (Daytime)" :=
  missing_night_key_means_daytime ⟨20, 80, 0, 50, 10, 5, 153, none⟩ true
    (fun _ => 1) ⟨60, 55, true⟩ rfl

/-- C5: `is_currently_night` is a total function (the embedding is a plain
Lean function, mirroring that every exception is handled): when both the
sunrise and the sunset string parse in 12-hour AM/PM format it answers
exactly `now < sunrise_today ∨ now ≥ sunset_today`; when either string
fails to parse it answers the fallback `hour(now) < 7 ∨ hour(now) ≥ 19` —
in particular, with unparseable strings, hour 3 gives `true` and hour 12
gives `false`. -/
theorem night_window_semantics :
    (∀ (today : Time) (sr ss : String) (sunrise_min sunset_min : Nat),
        parseTime12 sr = some sunrise_min → parseTime12 ss = some sunset_min →
        (is_currently_night today sr ss = true ↔
          (today.secondsOfDay < sunrise_min * 60 ∨
            sunset_min * 60 ≤ today.secondsOfDay))) ∧
      (∀ (today : Time) (sr ss : String),
        parseTime12 sr = none ∨ parseTime12 ss = none →
        (is_currently_night today sr ss = true ↔
          (today.hour < 7 ∨ 19 ≤ today.hour))) ∧
      is_currently_night ⟨3, 0, 0⟩ "not a time" "neither" = true ∧
      is_currently_night ⟨12, 0, 0⟩ "not a time" "neither" = false := by
  refine ⟨?_, ?_, by decide, by decide⟩
  · intro today sr ss sunrise_min sunset_min hsr hss
    simp [is_currently_night, hsr, hss]
  · intro today sr ss h
    rcases h with h | h
    · simp [is_currently_night, h]
    · cases hsr : parseTime12 sr <;> simp [is_currently_night, hsr, h]

theorem night_window_semantics_witness :
    is_currently_night ⟨2, 0, 0⟩ "06:00 AM" "07:00 PM" = true :=
  (night_window_semantics.1 ⟨2, 0, 0⟩ "06:00 AM" "07:00 PM" 360 1140
    (by decide) (by decide)).mpr (by decide)

/-- C6: the health verdict is the strict comparison of the raw reading
against the fixed 55.0 ceiling: `is_overheated = (current_temp_c > 55)`;
a reading of 60 is overheated (and at night forces the failsafe action for
every classifier and motion signal), a reading of exactly 55 is not. -/
theorem health_threshold_strict :
    (∀ t : ℚ, (read_health_sensor_eval t).is_overheated = decide (t > 55)) ∧
      MAX_SAFE_TEMP_C = 55 ∧
      (read_health_sensor_eval 60).is_overheated = true ∧
      (read_health_sensor_eval 55).is_overheated = false ∧
      (∀ (wf : WeatherFeatures) (motion : Bool) (clf : List ℚ → ℤ),
        wf.is_night_time = some true →
        determine_lamp_action wf motion clf (read_health_sensor_eval 60) =
          "MAX OUTPUT (System Failsafe: Overheat)") := by
  refine ⟨fun t => rfl, rfl, by decide, by decide, ?_⟩
  intro wf motion clf hn
  have h60 : MAX_SAFE_TEMP_C < (60 : ℚ) := by norm_num [MAX_SAFE_TEMP_C]
  simp [determine_lamp_action, hn, read_health_sensor_eval, h60]

theorem health_threshold_strict_witness :
    determine_lamp_action ⟨20, 80, 0, 50, 10, 5, 153, some true⟩ false
      (fun _ => 0) (read_health_sensor_eval 60) =
      "MAX OUTPUT (System Failsafe: Overheat)" :=
  health_threshold_strict.2.2.2.2 ⟨20, 80, 0, 50, 10, 5, 153, some true⟩
    false (fun _ => 0) rfl

/-- February has 28 or 29 days, depending on the leap-year bit. -/
lemma daysInMonth_feb (y : Nat) :
    28 ≤ daysInMonth y 2 ∧ daysInMonth y 2 ≤ 29 := by
  simp only [daysInMonth, if_pos rfl]
  rcases Bool.dichotomy (isLeapYear y) with h | h <;> simp [h]

/-- C7: the mapped feature vector's `day_of_year` is
`calculate_day_of_year` of the observation date, and that function is the
1-based, leap-year-aware ordinal of the date within its year: it is 1 on
January 1, increases by exactly 1 from each valid date to the next date of
the same year, reaches 366 on December 31 exactly in leap years (365
otherwise), stays within 1..366 on valid dates, and gives 153 for
2024-06-01, which is the value the classifier receives. -/
theorem day_of_year_ordinal :
    (∀ (current : CurrentReading) (d : Date) (b : Bool),
        (ml_features_of current d b).day_of_year = (calculate_day_of_year d : ℚ)) ∧
      (∀ y, calculate_day_of_year ⟨y, 1, 1⟩ = 1) ∧
      (∀ d : Date, d.isValid → ¬(d.month = 12 ∧ d.day = 31) →
        calculate_day_of_year d.nextInYear = calculate_day_of_year d + 1) ∧
      (∀ y, calculate_day_of_year ⟨y, 12, 31⟩ =
        if isLeapYear y then 366 else 365) ∧
      (∀ d : Date, d.isValid →
        1 ≤ calculate_day_of_year d ∧ calculate_day_of_year d ≤ 366) ∧
      calculate_day_of_year ⟨2024, 6, 1⟩ = 153 ∧
      (∀ (current : CurrentReading) (b : Bool),
        (ml_features_of current ⟨2024, 6, 1⟩ b).day_of_year = 153) := by
  refine ⟨fun current d b => rfl, ?_, ?_, ?_, ?_, by decide, ?_⟩
  · intro y
    simp [calculate_day_of_year]
  · rintro ⟨y, m, day⟩ ⟨h1, h2, h3, h4⟩ hne
    have h4' : day ≤ daysInMonth y m := h4
    by_cases hlt : day < daysInMonth y m
    · have hnext : Date.nextInYear ⟨y, m, day⟩ = ⟨y, m, day + 1⟩ := by
        simp [Date.nextInYear, hlt]
      rw [hnext]
      simp [calculate_day_of_year]
      omega
    · have hday : day = daysInMonth y m := le_antisymm h4' (not_lt.mp hlt)
      have hnext : Date.nextInYear ⟨y, m, day⟩ = ⟨y, m + 1, 1⟩ := by
        simp [Date.nextInYear, hlt]
      rw [hnext]
      have hm : 1 ≤ m := h1
      obtain ⟨m', rfl⟩ : ∃ m', m = m' + 1 := ⟨m - 1, by omega⟩
      simp [calculate_day_of_year, List.range_succ, hday]
  · intro y
    simp [calculate_day_of_year, List.range_succ, daysInMonth]
    rcases Bool.dichotomy (isLeapYear y) with h | h <;> simp [h]
  · rintro ⟨y, m, day⟩ ⟨h1, h2, h3, h4⟩
    have h1' : 1 ≤ m := h1
    have h2' : m ≤ 12 := h2
    have h3' : 1 ≤ day := h3
    have h4' : day ≤ daysInMonth y m := h4
    constructor
    · simp [calculate_day_of_year]
      omega
    · obtain ⟨ef1, ef2⟩ := daysInMonth_feb y
      have e1 : daysInMonth y 1 = 31 := rfl
      have e3 : daysInMonth y 3 = 31 := rfl
      have e4 : daysInMonth y 4 = 30 := rfl
      have e5 : daysInMonth y 5 = 31 := rfl
      have e6 : daysInMonth y 6 = 30 := rfl
      have e7 : daysInMonth y 7 = 31 := rfl
      have e8 : daysInMonth y 8 = 31 := rfl
      have e9 : daysInMonth y 9 = 30 := rfl
      have e10 : daysInMonth y 10 = 31 := rfl
      have e11 : daysInMonth y 11 = 30 := rfl
      have e12 : daysInMonth y 12 = 31 := rfl
      interval_cases m <;>
        simp [calculate_day_of_year, List.range_succ] <;>
        omega
  · intro current b
    have h153 : calculate_day_of_year ⟨2024, 6, 1⟩ = 153 := by decide
    simp [ml_features_of, h153]

theorem day_of_year_ordinal_witness :
    calculate_day_of_year (Date.nextInYear ⟨2024, 2, 28⟩) =
      calculate_day_of_year ⟨2024, 2, 28⟩ + 1 :=
  day_of_year_ordinal.2.2.1 ⟨2024, 2, 28⟩
    ⟨by norm_num, by norm_num, by norm_num, by decide⟩ (by decide)

/-- C8: the mapped visibility feature is `min(vis_km, 10.0)` — a silent
hard cap — so a reading of 15.0 maps to 10.0, and applying the cap twice
equals applying it once. -/
theorem visibility_hard_cap (current : CurrentReading) (current_date : Date)
    (is_night : Bool) :
    (ml_features_of current current_date is_night).visibility =
        min current.vis_km 10 ∧
      (ml_features_of ⟨20, 80, 0, 50, 15, 5⟩ current_date is_night).visibility
        = 10 ∧
      ∀ v : ℚ, min (min v 10) 10 = min v 10 := by
  refine ⟨rfl, ?_, fun v => by rw [min_assoc, min_self]⟩
  show min (15 : ℚ) 10 = 10
  norm_num

/-- C9: a weather response missing a required field makes
`fetch_real_time_weather` return the error result whose message embeds the
name of the first missing field, and that message is never equal to the
transport-failure message, for any missing key and any transport-exception
text; a transport failure yields its own error result; and on either error
result the route answers HTTP 500 with that message and produces no lamp
action (no guessed or stale reading reaches the decision engine, which is
only invoked on a success result). -/
theorem fetch_error_reporting :
    (∀ (today : Time) (ft : ℤ → Date) (e : String),
        fetch_real_time_weather today ft (FetchInput.transportFail e) =
          FetchResult.error (transportErrorMessage e)) ∧
      (∀ k e, missingKeyMessage k ≠ transportErrorMessage e) ∧
      (∀ (today : Time) (ft : ℤ → Date) (d : RawResponse),
        d.current = none →
        fetch_real_time_weather today ft (FetchInput.response d) =
          FetchResult.error (missingKeyMessage "current")) ∧
      (∀ (today : Time) (ft : ℤ → Date) (d : RawResponse) (c : RawCurrent),
        d.current = some c → d.forecast = none →
        fetch_real_time_weather today ft (FetchInput.response d) =
          FetchResult.error (missingKeyMessage "forecast")) ∧
      (∀ (today : Time) (ft : ℤ → Date) (d : RawResponse) (c : RawCurrent)
          (f : RawForecast),
        d.current = some c → d.forecast = some f → f.forecastday = none →
        fetch_real_time_weather today ft (FetchInput.response d) =
          FetchResult.error (missingKeyMessage "forecastday")) ∧
      (∀ (today : Time) (ft : ℤ → Date) (d : RawResponse) (c : RawCurrent)
          (f : RawForecast) (fd0 : RawForecastDay) (tl : List RawForecastDay),
        d.current = some c → d.forecast = some f →
        f.forecastday = some (fd0 :: tl) → fd0.astro = none →
        fetch_real_time_weather today ft (FetchInput.response d) =
          FetchResult.error (missingKeyMessage "astro")) ∧
      (∀ (today : Time) (ft : ℤ → Date) (d : RawResponse) (c : RawCurrent)
          (f : RawForecast) (fd0 : RawForecastDay) (tl : List RawForecastDay)
          (a : RawAstro),
        d.current = some c → d.forecast = some f →
        f.forecastday = some (fd0 :: tl) → fd0.astro = some a →
        c.last_updated_epoch = none →
        fetch_real_time_weather today ft (FetchInput.response d) =
          FetchResult.error (missingKeyMessage "last_updated_epoch")) ∧
      (∀ (today : Time) (ft : ℤ → Date) (d : RawResponse) (c : RawCurrent)
          (f : RawForecast) (fd0 : RawForecastDay) (tl : List RawForecastDay)
          (a : RawAstro) (ep : ℤ),
        d.current = some c → d.forecast = some f →
        f.forecastday = some (fd0 :: tl) → fd0.astro = some a →
        c.last_updated_epoch = some ep → a.sunrise = none →
        fetch_real_time_weather today ft (FetchInput.response d) =
          FetchResult.error (missingKeyMessage "sunrise")) ∧
      (∀ (today : Time) (ft : ℤ → Date) (d : RawResponse) (c : RawCurrent)
          (f : RawForecast) (fd0 : RawForecastDay) (tl : List RawForecastDay)
          (a : RawAstro) (ep : ℤ) (sr : String),
        d.current = some c → d.forecast = some f →
        f.forecastday = some (fd0 :: tl) → fd0.astro = some a →
        c.last_updated_epoch = some ep → a.sunrise = some sr →
        a.sunset = none →
        fetch_real_time_weather today ft (FetchInput.response d) =
          FetchResult.error (missingKeyMessage "sunset")) ∧
      (∀ (today : Time) (ft : ℤ → Date) (d : RawResponse) (c : RawCurrent)
          (f : RawForecast) (fd0 : RawForecastDay) (tl : List RawForecastDay)
          (a : RawAstro) (ep : ℤ) (sr ss : String),
        d.current = some c → d.forecast = some f →
        f.forecastday = some (fd0 :: tl) → fd0.astro = some a →
        c.last_updated_epoch = some ep → a.sunrise = some sr →
        a.sunset = some ss → c.temp_c = none →
        fetch_real_time_weather today ft (FetchInput.response d) =
          FetchResult.error (missingKeyMessage "temp_c")) ∧
      (∀ (today : Time) (ft : ℤ → Date) (d : RawResponse) (c : RawCurrent)
          (f : RawForecast) (fd0 : RawForecastDay) (tl : List RawForecastDay)
          (a : RawAstro) (ep : ℤ) (sr ss : String) (q1 : ℚ),
        d.current = some c → d.forecast = some f →
        f.forecastday = some (fd0 :: tl) → fd0.astro = some a →
        c.last_updated_epoch = some ep → a.sunrise = some sr →
        a.sunset = some ss → c.temp_c = some q1 → c.humidity = none →
        fetch_real_time_weather today ft (FetchInput.response d) =
          FetchResult.error (missingKeyMessage "humidity")) ∧
      (∀ (today : Time) (ft : ℤ → Date) (d : RawResponse) (c : RawCurrent)
          (f : RawForecast) (fd0 : RawForecastDay) (tl : List RawForecastDay)
          (a : RawAstro) (ep : ℤ) (sr ss : String) (q1 q2 : ℚ),
        d.current = some c → d.forecast = some f →
        f.forecastday = some (fd0 :: tl) → fd0.astro = some a →
        c.last_updated_epoch = some ep → a.sunrise = some sr →
        a.sunset = some ss → c.temp_c = some q1 → c.humidity = some q2 →
        c.precip_mm = none →
        fetch_real_time_weather today ft (FetchInput.response d) =
          FetchResult.error (missingKeyMessage "precip_mm")) ∧
      (∀ (today : Time) (ft : ℤ → Date) (d : RawResponse) (c : RawCurrent)
          (f : RawForecast) (fd0 : RawForecastDay) (tl : List RawForecastDay)
          (a : RawAstro) (ep : ℤ) (sr ss : String) (q1 q2 q3 : ℚ),
        d.current = some c → d.forecast = some f →
        f.forecastday = some (fd0 :: tl) → fd0.astro = some a →
        c.last_updated_epoch = some ep → a.sunrise = some sr →
        a.sunset = some ss → c.temp_c = some q1 → c.humidity = some q2 →
        c.precip_mm = some q3 → c.cloud = none →
        fetch_real_time_weather today ft (FetchInput.response d) =
          FetchResult.error (missingKeyMessage "cloud")) ∧
      (∀ (today : Time) (ft : ℤ → Date) (d : RawResponse) (c : RawCurrent)
          (f : RawForecast) (fd0 : RawForecastDay) (tl : List RawForecastDay)
          (a : RawAstro) (ep : ℤ) (sr ss : String) (q1 q2 q3 q4 : ℚ),
        d.current = some c → d.forecast = some f →
        f.forecastday = some (fd0 :: tl) → fd0.astro = some a →
        c.last_updated_epoch = some ep → a.sunrise = some sr →
        a.sunset = some ss → c.temp_c = some q1 → c.humidity = some q2 →
        c.precip_mm = some q3 → c.cloud = some q4 → c.vis_km = none →
        fetch_real_time_weather today ft (FetchInput.response d) =
          FetchResult.error (missingKeyMessage "vis_km")) ∧
      (∀ (today : Time) (ft : ℤ → Date) (d : RawResponse) (c : RawCurrent)
          (f : RawForecast) (fd0 : RawForecastDay) (tl : List RawForecastDay)
          (a : RawAstro) (ep : ℤ) (sr ss : String) (q1 q2 q3 q4 q5 : ℚ),
        d.current = some c → d.forecast = some f →
        f.forecastday = some (fd0 :: tl) → fd0.astro = some a →
        c.last_updated_epoch = some ep → a.sunrise = some sr →
        a.sunset = some ss → c.temp_c = some q1 → c.humidity = some q2 →
        c.precip_mm = some q3 → c.cloud = some q4 → c.vis_km = some q5 →
        c.uv = none →
        fetch_real_time_weather today ft (FetchInput.response d) =
          FetchResult.error (missingKeyMessage "uv")) ∧
      (∀ (modelClf : List ℚ → ℤ) (today : Time) (ft : ℤ → Date)
          (input : FetchInput) (t : ℚ) (motion : Bool) (msg : String),
        fetch_real_time_weather today ft input = FetchResult.error msg →
        control_lamp true modelClf today ft input t motion =
          ServerResponse.httpError 500 msg) := by
  refine ⟨fun today ft e => rfl, ?_, ?_, ?_, ?_, ?_, ?_, ?_, ?_, ?_, ?_, ?_,
    ?_, ?_, ?_, ?_⟩
  · intro k e h
    have h' := congrArg String.data h
    simp [missingKeyMessage, transportErrorMessage, String.data_append] at h'
  · intro today ft d h1
    simp [fetch_real_time_weather, keyErrorResult, h1]
  · intro today ft d c h1 h2
    simp [fetch_real_time_weather, keyErrorResult, h1, h2]
  · intro today ft d c f h1 h2 h3
    simp [fetch_real_time_weather, keyErrorResult, h1, h2, h3]
  · intro today ft d c f fd0 tl h1 h2 h3 h4
    simp [fetch_real_time_weather, keyErrorResult, h1, h2, h3, h4]
  · intro today ft d c f fd0 tl a h1 h2 h3 h4 h5
    simp [fetch_real_time_weather, keyErrorResult, h1, h2, h3, h4, h5]
  · intro today ft d c f fd0 tl a ep h1 h2 h3 h4 h5 h6
    simp [fetch_real_time_weather, keyErrorResult, h1, h2, h3, h4, h5, h6]
  · intro today ft d c f fd0 tl a ep sr h1 h2 h3 h4 h5 h6 h7
    simp [fetch_real_time_weather, keyErrorResult, h1, h2, h3, h4, h5, h6, h7]
  · intro today ft d c f fd0 tl a ep sr ss h1 h2 h3 h4 h5 h6 h7 h8
    simp [fetch_real_time_weather, keyErrorResult, h1, h2, h3, h4, h5, h6, h7,
      h8]
  · intro today ft d c f fd0 tl a ep sr ss q1 h1 h2 h3 h4 h5 h6 h7 h8 h9
    simp [fetch_real_time_weather, keyErrorResult, h1, h2, h3, h4, h5, h6, h7,
      h8, h9]
  · intro today ft d c f fd0 tl a ep sr ss q1 q2 h1 h2 h3 h4 h5 h6 h7 h8 h9
      h10
    simp [fetch_real_time_weather, keyErrorResult, h1, h2, h3, h4, h5, h6, h7,
      h8, h9, h10]
  · intro today ft d c f fd0 tl a ep sr ss q1 q2 q3 h1 h2 h3 h4 h5 h6 h7 h8
      h9 h10 h11
    simp [fetch_real_time_weather, keyErrorResult, h1, h2, h3, h4, h5, h6, h7,
      h8, h9, h10, h11]
  · intro today ft d c f fd0 tl a ep sr ss q1 q2 q3 q4 h1 h2 h3 h4 h5 h6 h7
      h8 h9 h10 h11 h12
    simp [fetch_real_time_weather, keyErrorResult, h1, h2, h3, h4, h5, h6, h7,
      h8, h9, h10, h11, h12]
  · intro today ft d c f fd0 tl a ep sr ss q1 q2 q3 q4 q5 h1 h2 h3 h4 h5 h6
      h7 h8 h9 h10 h11 h12 h13
    simp [fetch_real_time_weather, keyErrorResult, h1, h2, h3, h4, h5, h6, h7,
      h8, h9, h10, h11, h12, h13]
  · intro modelClf today ft input t motion msg h
    simp [control_lamp, h]

theorem fetch_error_reporting_witness :
    fetch_real_time_weather ⟨12, 0, 0⟩ (fun _ => ⟨2024, 6, 1⟩)
      (FetchInput.response
        ⟨some ⟨some 1717200000, none, some 80, some 0, some 50, some 10, some 5⟩,
          some ⟨some [⟨some ⟨some "06:00 AM", some "07:00 PM"⟩⟩]⟩⟩) =
      FetchResult.error (missingKeyMessage "temp_c") :=
  fetch_error_reporting.2.2.2.2.2.2.2.2.2.1 ⟨12, 0, 0⟩ (fun _ => ⟨2024, 6, 1⟩)
    ⟨some ⟨some 1717200000, none, some 80, some 0, some 50, some 10, some 5⟩,
      some ⟨some [⟨some ⟨some "06:00 AM", some "07:00 PM"⟩⟩]⟩⟩
    ⟨some 1717200000, none, some 80, some 0, some 50, some 10, some 5⟩
    ⟨some [⟨some ⟨some "06:00 AM", some "07:00 PM"⟩⟩]⟩
    ⟨some ⟨some "06:00 AM", some "07:00 PM"⟩⟩ []
    ⟨some "06:00 AM", some "07:00 PM"⟩ 1717200000 "06:00 AM" "07:00 PM"
    rfl rfl rfl rfl rfl rfl rfl rfl
